import Mathlib

/-!
Shallow embedding of the DeviceBridge simulator core:
`src/modules/device_simulator.py` (device state machines, history buffer,
runner lifecycle) and `src/modules/data_sink.py` (sinks, batching
dispatcher, sink registry).

Python floats are modelled as rationals; each call to `random.uniform`,
`random.randint` or `random.random` is modelled as an explicit draw value
constrained to the interval the library call samples from.
-/

namespace DeviceBridge

/-! ### Infusion pump state machine (`InfusionPumpSimulator._update_pump_state`) -/

structure PumpState where
  flow_rate : ℚ
  pressure : ℚ
  battery_level : ℚ
  volume_infused : ℚ
  alarms : List String
deriving DecidableEq

/-- Initial pump state, from `InfusionPumpSimulator.__init__`. -/
def initPumpState : PumpState :=
  { flow_rate := 5, pressure := 25, battery_level := 100, volume_infused := 0, alarms := [] }

/-- Per-tick random draws for the pump: `uniform(-0.2,0.2)`, `uniform(-2,2)`,
`uniform(0.01,0.05)`. -/
structure PumpDraws where
  dFlow : ℚ
  dPressure : ℚ
  dBattery : ℚ

def PumpDraws.Valid (d : PumpDraws) : Prop :=
  -0.2 ≤ d.dFlow ∧ d.dFlow ≤ 0.2 ∧
  -2 ≤ d.dPressure ∧ d.dPressure ≤ 2 ∧
  0.01 ≤ d.dBattery ∧ d.dBattery ≤ 0.05

instance (d : PumpDraws) : Decidable d.Valid := by
  unfold PumpDraws.Valid
  infer_instance

/-- Embedding of `InfusionPumpSimulator._update_pump_state`, lines 129-152 of
`device_simulator.py`: clamped random walk on flow rate, pressure and
battery, volume accumulation, alarms recomputed from scratch. -/
def updatePumpState (update_interval : ℚ) (s : PumpState) (d : PumpDraws) : PumpState :=
  let flow_rate := max 0 (min 10 (s.flow_rate + d.dFlow))
  let pressure := max 10 (min 50 (s.pressure + d.dPressure))
  let battery_level := max 0 (s.battery_level - d.dBattery)
  let volume_infused := s.volume_infused + flow_rate * (update_interval / 3600)
  { flow_rate := flow_rate
    pressure := pressure
    battery_level := battery_level
    volume_infused := volume_infused
    alarms :=
      (if battery_level < 20 then ["LOW_BATTERY"] else []) ++
      (if pressure > 45 then ["HIGH_PRESSURE"] else []) ++
      (if volume_infused > 450 then ["LOW_VOLUME"] else []) }

/-- Run the pump state machine over a sequence of per-tick draws. -/
def runPump (update_interval : ℚ) (s : PumpState) (ds : List PumpDraws) : PumpState :=
  ds.foldl (updatePumpState update_interval) s

/-- The declared clamp ranges of the numeric pump fields. -/
def PumpState.InRange (s : PumpState) : Prop :=
  0 ≤ s.flow_rate ∧ s.flow_rate ≤ 10 ∧
  10 ≤ s.pressure ∧ s.pressure ≤ 50 ∧
  0 ≤ s.battery_level ∧ s.battery_level ≤ 100

instance (s : PumpState) : Decidable s.InRange := by
  unfold PumpState.InRange
  infer_instance

/-! ### Patient bed state machine (`PatientBedSimulator._update_bed_state`) -/

structure BedState where
  weight : ℚ
  position_angle : ℚ
  occupancy : Bool
  movement_level : ℤ
  bed_exit_risk : String
deriving DecidableEq

/-- Initial bed state, from `PatientBedSimulator.__init__`. -/
def initBedState : BedState :=
  { weight := 75, position_angle := 30, occupancy := true,
    movement_level := 2, bed_exit_risk := "low" }

/-- Per-tick random draws for the bed: `uniform(-0.5,0.5)`, `uniform(-5,5)`,
`randint(0,5)`, two `random.random()` draws, and `uniform(60,120)` used on an
occupancy transition. -/
structure BedDraws where
  dWeight : ℚ
  dAngle : ℚ
  mvLevel : ℤ
  rRisk : ℚ
  rOccupy : ℚ
  newWeight : ℚ

def BedDraws.Valid (d : BedDraws) : Prop :=
  -0.5 ≤ d.dWeight ∧ d.dWeight ≤ 0.5 ∧
  -5 ≤ d.dAngle ∧ d.dAngle ≤ 5 ∧
  0 ≤ d.mvLevel ∧ d.mvLevel ≤ 5 ∧
  0 ≤ d.rRisk ∧ d.rRisk < 1 ∧
  0 ≤ d.rOccupy ∧ d.rOccupy < 1 ∧
  60 ≤ d.newWeight ∧ d.newWeight ≤ 120

instance (d : BedDraws) : Decidable d.Valid := by
  unfold BedDraws.Valid
  infer_instance

/-- Embedding of `PatientBedSimulator._update_bed_state`, lines 184-208 of
`device_simulator.py`. If occupied: clamped random walk on weight and
position, fresh movement level, risk reassessment. If unoccupied: with
probability 0.05 become occupied and resample weight in [60,120]; otherwise
nothing changes. -/
def updateBedState (s : BedState) (d : BedDraws) : BedState :=
  if s.occupancy then
    let weight := max 50 (min 150 (s.weight + d.dWeight))
    let position_angle := max 0 (min 70 (s.position_angle + d.dAngle))
    let movement_level := d.mvLevel
    let bed_exit_risk :=
      if movement_level > 3 ∧ d.rRisk < 0.3 then "high"
      else if movement_level > 1 then "medium"
      else "low"
    { s with weight := weight, position_angle := position_angle,
             movement_level := movement_level, bed_exit_risk := bed_exit_risk }
  else
    if d.rOccupy < 0.05 then
      { s with occupancy := true, weight := d.newWeight }
    else
      s

/-- Run the bed state machine over a sequence of per-tick draws. -/
def runBed (s : BedState) (ds : List BedDraws) : BedState :=
  ds.foldl updateBedState s

/-- The declared clamp ranges of the numeric bed fields. -/
def BedState.InRange (s : BedState) : Prop :=
  50 ≤ s.weight ∧ s.weight ≤ 150 ∧
  0 ≤ s.position_angle ∧ s.position_angle ≤ 70

instance (s : BedState) : Decidable s.InRange := by
  unfold BedState.InRange
  infer_instance

/-! ### Vital signs state machine (`VitalSignsSimulator._update_vitals`) -/

structure VitalsState where
  heart_rate : ℤ
  blood_pressure_sys : ℤ
  blood_pressure_dia : ℤ
  oxygen_saturation : ℚ
  respiratory_rate : ℤ
  temperature : ℚ
deriving DecidableEq

/-- Initial vitals state, from `VitalSignsSimulator.__init__`. -/
def initVitalsState : VitalsState :=
  { heart_rate := 75, blood_pressure_sys := 120, blood_pressure_dia := 80,
    oxygen_saturation := 98, respiratory_rate := 16, temperature := 36.5 }

/-- Per-tick random draws for the vitals monitor: `randint(-3,3)`,
`randint(-5,5)`, `randint(-3,3)`, `uniform(-1,1)`, `randint(-1,1)`,
`uniform(-0.2,0.2)`. -/
structure VitalsDraws where
  dHeart : ℤ
  dSys : ℤ
  dDia : ℤ
  dOxygen : ℚ
  dResp : ℤ
  dTemp : ℚ

def VitalsDraws.Valid (d : VitalsDraws) : Prop :=
  -3 ≤ d.dHeart ∧ d.dHeart ≤ 3 ∧
  -5 ≤ d.dSys ∧ d.dSys ≤ 5 ∧
  -3 ≤ d.dDia ∧ d.dDia ≤ 3 ∧
  -1 ≤ d.dOxygen ∧ d.dOxygen ≤ 1 ∧
  -1 ≤ d.dResp ∧ d.dResp ≤ 1 ∧
  -0.2 ≤ d.dTemp ∧ d.dTemp ≤ 0.2

instance (d : VitalsDraws) : Decidable d.Valid := by
  unfold VitalsDraws.Valid
  infer_instance

/-- Embedding of `VitalSignsSimulator._update_vitals`, lines 242-260 of
`device_simulator.py`: bounded random increment then clamp, per field. -/
def updateVitals (s : VitalsState) (d : VitalsDraws) : VitalsState :=
  { heart_rate := max 45 (min 150 (s.heart_rate + d.dHeart))
    blood_pressure_sys := max 90 (min 180 (s.blood_pressure_sys + d.dSys))
    blood_pressure_dia := max 50 (min 110 (s.blood_pressure_dia + d.dDia))
    oxygen_saturation := max 85 (min 100 (s.oxygen_saturation + d.dOxygen))
    respiratory_rate := max 8 (min 30 (s.respiratory_rate + d.dResp))
    temperature := max 35 (min 40 (s.temperature + d.dTemp)) }

/-- Run the vitals state machine over a sequence of per-tick draws. -/
def runVitals (s : VitalsState) (ds : List VitalsDraws) : VitalsState :=
  ds.foldl updateVitals s

/-- The declared clamp ranges of the vitals fields. -/
def VitalsState.InRange (s : VitalsState) : Prop :=
  45 ≤ s.heart_rate ∧ s.heart_rate ≤ 150 ∧
  90 ≤ s.blood_pressure_sys ∧ s.blood_pressure_sys ≤ 180 ∧
  50 ≤ s.blood_pressure_dia ∧ s.blood_pressure_dia ≤ 110 ∧
  85 ≤ s.oxygen_saturation ∧ s.oxygen_saturation ≤ 100 ∧
  8 ≤ s.respiratory_rate ∧ s.respiratory_rate ≤ 30 ∧
  35 ≤ s.temperature ∧ s.temperature ≤ 40

instance (s : VitalsState) : Decidable s.InRange := by
  unfold VitalsState.InRange
  infer_instance

/-- Embedding of `VitalSignsSimulator._generate_alerts`, lines 262-280. -/
def generateAlerts (s : VitalsState) : List String :=
  (if s.heart_rate > 100 then ["TACHYCARDIA"]
   else if s.heart_rate < 60 then ["BRADYCARDIA"] else []) ++
  (if s.blood_pressure_sys > 140 then ["HYPERTENSION"]
   else if s.blood_pressure_sys < 100 then ["HYPOTENSION"] else []) ++
  (if s.oxygen_saturation < 90 then ["LOW_OXYGEN"] else []) ++
  (if s.temperature > 38 then ["FEVER"] else [])

/-! ### History buffer (`BaseDeviceSimulator.send_data`, lines 53-58) -/

/-- The history-buffer effect of one `send_data` call: append, then pop the
oldest record once the length exceeds 100. -/
def sendDataHistory {α : Type} (history : List α) (data : α) : List α :=
  let h := history ++ [data]
  if h.length > 100 then h.tail else h

/-- The history buffer after a sequence of emitted records is delivered
through `send_data`, starting from the empty buffer of `__init__`. -/
def historyAfter {α : Type} (records : List α) : List α :=
  records.foldl sendDataHistory []

/-! ### Runner lifecycle (`BaseDeviceSimulator.start` / `stop`, lines 66-82) -/

/-- The lifecycle-relevant state of a device runner: the `running` flag and
the (optional) worker thread, identified by a token. -/
structure RunnerState where
  running : Bool
  thread : Option Nat
deriving DecidableEq

/-- Runner state before the first `start`, from `__init__`. -/
def initRunnerState : RunnerState :=
  { running := false, thread := none }

/-- Embedding of `BaseDeviceSimulator.start`: if already running, return immediately;
otherwise set the flag and spawn a thread. The returned flag records whether
a new thread was spawned. -/
def startRunner (s : RunnerState) (newThread : Nat) : RunnerState × Bool :=
  if s.running then (s, false)
  else ({ running := true, thread := some newThread }, true)

/-- Embedding of `BaseDeviceSimulator.stop`: clear the flag, then join the thread if one
exists (joining does not change the recorded state). -/
def stopRunner (s : RunnerState) : RunnerState :=
  { s with running := false }

/-! ### Batching dispatcher (`APIDataSink._process_batches`, lines 278-298) -/

/-- Per-iteration queue interaction for the batch worker: `some r` means
the bounded-wait `get` returned record `r` before the 1-unit timeout,
`none` means the wait timed out (`queue.Empty`). -/
def QueueEvent (α : Type) : Type := Option α

/-- Embedding of `APIDataSink._process_batches` over a finite trace of queue events:
a dequeued record is appended to the batch, which is sent as soon as it
reaches `batch_size`; on a timeout a non-empty batch is flushed. Returns
the list of batches sent, in send order. -/
def processBatches {α : Type} (batch_size : Nat) :
    List (Option α) → List α → List (List α)
  | [], _ => []
  | some data :: evs, batch =>
      let b := batch ++ [data]
      if b.length ≥ batch_size then b :: processBatches batch_size evs []
      else processBatches batch_size evs b
  | none :: evs, batch =>
      if batch.isEmpty then processBatches batch_size evs []
      else batch :: processBatches batch_size evs []

/-! ### Batch send (`APIDataSink._send_batch`, lines 300-324) -/

/-- Payload shape of one API post: a bare single record, or the
`data`-wrapped collection. -/
inductive Payload (α : Type) where
  | single : α → Payload α
  | collection : List α → Payload α
deriving DecidableEq

/-- One synchronous API post: endpoint path, payload, timeout in seconds. -/
structure ApiPost (α : Type) where
  endpoint : String
  payload : Payload α
  timeout : Nat
deriving DecidableEq

/-- Embedding of `APIDataSink._send_batch`: a batch of exactly one record is posted bare
to `/devices/data` with timeout 5; any other batch is posted as
`data: [...]` to `/devices/data/batch` with timeout 10. -/
def sendBatchPost {α : Type} (api_url : String) : List α → ApiPost α
  | [r] => { endpoint := api_url ++ "/devices/data", payload := .single r, timeout := 5 }
  | batch => { endpoint := api_url ++ "/devices/data/batch",
               payload := .collection batch, timeout := 10 }

/-- Outcome of one batch send attempt. -/
inductive SendOutcome where
  | success
  | droppedFailure
deriving DecidableEq

/-- Response handling in `_send_batch`: status 200 or 201 is success,
anything else is logged and the batch is dropped (no retry). A transport
error takes the same dropped path via the `except` clause. -/
def handleStatus (status_code : Nat) : SendOutcome :=
  if status_code = 200 ∨ status_code = 201 then .success else .droppedFailure

/-! ### Record values (Python dict values, for the sink write contract) -/

/-- A Python value as it appears in a telemetry record. -/
inductive Val where
  | str : String → Val
  | int : Int → Val
  | bool : Bool → Val
  | listv : List Val → Val
  | dict : List (String × Val) → Val

/-- Python `v == "s"` where `"s"` is a string literal: true exactly when `v`
is that string. -/
def Val.eqStr (v : Val) (t : String) : Bool :=
  match v with
  | .str u => u == t
  | _ => false

/-- Dictionary lookup, first binding wins (Python dict keys are unique). -/
def getField (data : List (String × Val)) (k : String) : Option Val :=
  (data.find? (fun p => p.1 == k)).map (fun p => p.2)

/-- Python `data[k]`: raises `KeyError` when the key is absent. -/
def getItem (data : List (String × Val)) (k : String) : Except String Val :=
  match getField data k with
  | some v => .ok v
  | none => .error ("KeyError: " ++ k)

/-- Python `data.get(k, dflt)`. -/
def getDefault (data : List (String × Val)) (k : String) (dflt : Val) : Val :=
  (getField data k).getD dflt

/-- Python `v.get(k, dflt)` on a value expected to be a dict. -/
def dictGetDefault (v : Val) (k : String) (dflt : Val) : Val :=
  match v with
  | .dict fields => getDefault fields k dflt
  | _ => dflt

/-- Python `v[k]` on a value expected to be a dict: raises on a missing key. -/
def dictGetItem (v : Val) (k : String) : Except String Val :=
  match v with
  | .dict fields => getItem fields k
  | _ => .error ("TypeError: " ++ k)

/-! ### Console sink (`ConsoleDataSink.write`, lines 40-56 of `data_sink.py`)

The observable effect of a console write is the sequence of record values
printed; `Except` carries a Python exception (`KeyError`) when a required
subscripted field is absent. A disabled sink returns with no output. -/

def consoleWrite (enabled : Bool) (format_type : String)
    (data : List (String × Val)) : Except String (List Val) :=
  if enabled = false then .ok []
  else if format_type == "simple" then do
    let dt ← getItem data "device_type"
    let di ← getItem data "device_id"
    let ts ← getItem data "timestamp"
    .ok [dt, di, ts]
  else if format_type == "detailed" then do
    let ts ← getItem data "timestamp"
    let dt ← getItem data "device_type"
    let di ← getItem data "device_id"
    let loc ← getItem data "location"
    let metrics :=
      if dt.eqStr "infusion_pump" then
        [getDefault data "flow_rate" (.str "N/A"),
         getDefault data "pressure" (.str "N/A")]
      else if dt.eqStr "patient_bed" then
        [getDefault data "weight" (.str "N/A"),
         getDefault data "position_angle" (.str "N/A")]
      else if dt.eqStr "vital_signs" then
        [getDefault data "heart_rate" (.str "N/A"),
         dictGetDefault (getDefault data "blood_pressure" (.dict [])) "systolic" (.str "N/A"),
         dictGetDefault (getDefault data "blood_pressure" (.dict [])) "diastolic" (.str "N/A")]
      else []
    .ok ([ts, dt, di, loc] ++ metrics)
  else if format_type == "json" then .ok [.dict data]
  else .ok []

/-! ### File sink (`FileDataSink.write`, lines 68-113) -/

/-- One append to a device-type-specific file. -/
structure FileAppend where
  filename : String
  payload : Val

/-- The file name interpolation of `_write_json` / `_write_csv`; the device
type is always a string in emitted records. -/
def deviceTypeFileName (device_type : Val) (ext : String) : String :=
  match device_type with
  | .str u => u ++ "_data." ++ ext
  | _ => "_data." ++ ext

/-- Embedding of `FileDataSink._flatten_dict`: nested dicts are flattened with an
underscore separator; list values are kept whole (JSON-encoded on write). -/
def flattenVal (key : String) (v : Val) : List (String × Val) :=
  match v with
  | .dict fields => flattenFields key fields
  | v => [(key, v)]
where
  flattenFields (parent : String) : List (String × Val) → List (String × Val)
    | [] => []
    | (k, v) :: rest => flattenVal (parent ++ "_" ++ k) v ++ flattenFields parent rest

def flattenDict (data : List (String × Val)) : List (String × Val) :=
  match data with
  | [] => []
  | (k, v) :: rest => flattenVal k v ++ flattenDict rest

/-- Embedding of `FileDataSink.write`: disabled returns with no effect; otherwise the
record is appended to the file of its device type, JSON lines or flattened
CSV rows according to the configured format. -/
def fileWrite (enabled : Bool) (format : String)
    (data : List (String × Val)) : Except String (List FileAppend) :=
  if enabled = false then .ok []
  else do
    let device_type ← getItem data "device_type"
    if format == "json" then
      .ok [{ filename := deviceTypeFileName device_type "jsonl", payload := .dict data }]
    else if format == "csv" then
      .ok [{ filename := deviceTypeFileName device_type "csv",
             payload := .dict (flattenDict data) }]
    else .ok []

/-! ### Database sink (`DatabaseDataSink.write`, lines 190-248) -/

/-- One row insert into a named table. -/
structure DbInsert where
  table : String
  row : List Val

/-- Embedding of `DatabaseDataSink.write`: disabled returns with no effect; otherwise,
under the lock, one row goes into the common `device_data` table and one
into the device-type-specific table, committed together. Every field is
fetched with Python subscripting (`data[...]`), so an absent field raises
`KeyError` and nothing is committed. -/
def databaseWrite (enabled : Bool) (data : List (String × Val)) :
    Except String (List DbInsert) :=
  if enabled = false then .ok []
  else do
    let device_id ← getItem data "device_id"
    let device_type ← getItem data "device_type"
    let location ← getItem data "location"
    let timestamp ← getItem data "timestamp"
    let session_id ← getItem data "session_id"
    let common : DbInsert :=
      { table := "device_data"
        row := [device_id, device_type, location, timestamp, session_id, .dict data] }
    if device_type.eqStr "infusion_pump" then do
      let flow_rate ← getItem data "flow_rate"
      let target_flow_rate ← getItem data "target_flow_rate"
      let pressure ← getItem data "pressure"
      let battery_level ← getItem data "battery_level"
      let volume_infused ← getItem data "volume_infused"
      let volume_remaining ← getItem data "volume_remaining"
      let status ← getItem data "status"
      let alarms ← getItem data "alarms"
      .ok [common,
           { table := "infusion_pump_data"
             row := [device_id, timestamp, flow_rate, target_flow_rate, pressure,
                     battery_level, volume_infused, volume_remaining, status, alarms] }]
    else if device_type.eqStr "patient_bed" then do
      let weight ← getItem data "weight"
      let position_angle ← getItem data "position_angle"
      let occupancy ← getItem data "occupancy"
      let movement_level ← getItem data "movement_level"
      let bed_exit_risk ← getItem data "bed_exit_risk"
      .ok [common,
           { table := "patient_bed_data"
             row := [device_id, timestamp, weight, position_angle, occupancy,
                     movement_level, bed_exit_risk] }]
    else if device_type.eqStr "vital_signs" then do
      let heart_rate ← getItem data "heart_rate"
      let blood_pressure ← getItem data "blood_pressure"
      let sys ← dictGetItem blood_pressure "systolic"
      let dia ← dictGetItem blood_pressure "diastolic"
      let oxygen_saturation ← getItem data "oxygen_saturation"
      let respiratory_rate ← getItem data "respiratory_rate"
      let temperature ← getItem data "temperature"
      .ok [common,
           { table := "vital_signs_data"
             row := [device_id, timestamp, heart_rate, sys, dia,
                     oxygen_saturation, respiratory_rate, temperature] }]
    else
      .ok [common]

/-! ### API sink producer side (`APIDataSink.write`, lines 272-276) -/

/-- Embedding of `APIDataSink.write`: disabled returns without enqueuing; otherwise the
record is put on the batch queue. -/
def apiWrite {α : Type} (enabled : Bool) (batch_queue : List α) (data : α) : List α :=
  if enabled = false then batch_queue else batch_queue ++ [data]

/-! ### Sink registry (`DataSinkManager.write_to_all`, lines 337-344) -/

/-- A registered sink as the registry sees it: its name, its enabled flag,
and its `write` behaviour on a record — success, or a raised exception
described by a message. -/
structure SinkEntry (α : Type) where
  name : String
  enabled : Bool
  writeFn : α → Except String Unit

/-- Embedding of `DataSinkManager.write_to_all`: walk the registration list in order;
the `write` of each enabled sink is attempted inside `try`/`except`, so its
outcome (recorded here) is logged and never stops the loop; disabled sinks
are skipped. Returns the per-sink attempt trace in order. -/
def writeToAll {α : Type} : List (SinkEntry α) → α → List (String × Except String Unit)
  | [], _ => []
  | sink :: rest, data =>
      if sink.enabled then (sink.name, sink.writeFn data) :: writeToAll rest data
      else writeToAll rest data

/-- A concrete infusion-pump record with every base field present but the
device-type-specific `flow_rate` field absent. -/
def pumpRecordNoFlowRate : List (String × Val) :=
  [("device_id", .str "pump_001"), ("device_type", .str "infusion_pump"),
   ("location", .str "Room_101"), ("timestamp", .str "t0"),
   ("session_id", .str "abc123"), ("target_flow_rate", .int 5),
   ("pressure", .int 25), ("battery_level", .int 85),
   ("volume_infused", .int 125), ("volume_remaining", .int 375),
   ("status", .str "running"), ("alarms", .listv [])]

/-! ## Theorems -/

lemma updatePumpState_inRange (iv : ℚ) (s : PumpState) (d : PumpDraws)
    (hs : s.InRange) (hd : d.Valid) : (updatePumpState iv s d).InRange := by
  obtain ⟨_, _, _, _, hb0, hb1⟩ := hs
  obtain ⟨_, _, _, _, hd0, _⟩ := hd
  refine ⟨le_max_left _ _, max_le (by norm_num) (min_le_left _ _),
    le_max_left _ _, max_le (by norm_num) (min_le_left _ _),
    le_max_left _ _, max_le (by norm_num) (by linarith)⟩

lemma runPump_inRange (iv : ℚ) (ds : List PumpDraws) : ∀ (s : PumpState),
    s.InRange → (∀ d ∈ ds, d.Valid) → (runPump iv s ds).InRange := by
  induction ds with
  | nil => intro s hs _; exact hs
  | cons d ds ih =>
      intro s hs hd
      exact ih _ (updatePumpState_inRange iv s d hs (hd d (by simp)))
        (fun x hx => hd x (by simp [hx]))

lemma updateBedState_inRange (s : BedState) (d : BedDraws)
    (hs : s.InRange) (hd : d.Valid) : (updateBedState s d).InRange := by
  obtain ⟨hw0, hw1, ha0, ha1⟩ := hs
  obtain ⟨_, _, _, _, _, _, _, _, _, _, hnw0, hnw1⟩ := hd
  unfold updateBedState
  split
  · exact ⟨le_max_left _ _, max_le (by norm_num) (min_le_left _ _),
      le_max_left _ _, max_le (by norm_num) (min_le_left _ _)⟩
  · split
    · exact ⟨by linarith, by linarith, ha0, ha1⟩
    · exact ⟨hw0, hw1, ha0, ha1⟩

lemma runBed_inRange (ds : List BedDraws) : ∀ (s : BedState),
    s.InRange → (∀ d ∈ ds, d.Valid) → (runBed s ds).InRange := by
  induction ds with
  | nil => intro s hs _; exact hs
  | cons d ds ih =>
      intro s hs hd
      exact ih _ (updateBedState_inRange s d hs (hd d (by simp)))
        (fun x hx => hd x (by simp [hx]))

lemma updateVitals_inRange (s : VitalsState) (d : VitalsDraws)
    (_hs : s.InRange) (_hd : d.Valid) : (updateVitals s d).InRange :=
  ⟨le_max_left _ _, max_le (by norm_num) (min_le_left _ _),
   le_max_left _ _, max_le (by norm_num) (min_le_left _ _),
   le_max_left _ _, max_le (by norm_num) (min_le_left _ _),
   le_max_left _ _, max_le (by norm_num) (min_le_left _ _),
   le_max_left _ _, max_le (by norm_num) (min_le_left _ _),
   le_max_left _ _, max_le (by norm_num) (min_le_left _ _)⟩

lemma runVitals_inRange (ds : List VitalsDraws) : ∀ (s : VitalsState),
    s.InRange → (∀ d ∈ ds, d.Valid) → (runVitals s ds).InRange := by
  induction ds with
  | nil => intro s hs _; exact hs
  | cons d ds ih =>
      intro s hs hd
      exact ih _ (updateVitals_inRange s d hs (hd d (by simp)))
        (fun x hx => hd x (by simp [hx]))

/-- C1: for every device-type state machine, every initial state within
range and every sequence of valid random draws, after each call to the
state-update step (i.e. after any prefix of the tick sequence) every clamped
numeric field lies within its declared range: pump flow_rate in [0,10],
pressure in [10,50], battery in [0,100]; bed weight in [50,150],
position_angle in [0,70]; vitals heart_rate in [45,150], systolic in
[90,180], diastolic in [50,110], oxygen_saturation in [85,100],
respiratory_rate in [8,30], temperature in [35,40]. -/
theorem C1_clamped_fields_in_range :
    (∀ (iv : ℚ) (s : PumpState) (ds : List PumpDraws), s.InRange →
      (∀ d ∈ ds, d.Valid) → ∀ i, i ≤ ds.length → (runPump iv s (ds.take i)).InRange) ∧
    (∀ (s : BedState) (ds : List BedDraws), s.InRange →
      (∀ d ∈ ds, d.Valid) → ∀ i, i ≤ ds.length → (runBed s (ds.take i)).InRange) ∧
    (∀ (s : VitalsState) (ds : List VitalsDraws), s.InRange →
      (∀ d ∈ ds, d.Valid) → ∀ i, i ≤ ds.length → (runVitals s (ds.take i)).InRange) := by
  refine ⟨?_, ?_, ?_⟩
  · intro iv s ds hs hd i _
    exact runPump_inRange iv (ds.take i) s hs fun d hdm => hd d (List.take_subset i ds hdm)
  · intro s ds hs hd i _
    exact runBed_inRange (ds.take i) s hs fun d hdm => hd d (List.take_subset i ds hdm)
  · intro s ds hs hd i _
    exact runVitals_inRange (ds.take i) s hs fun d hdm => hd d (List.take_subset i ds hdm)

/-- Witness for C1 at the initial states of the three simulators and a
concrete one-tick draw sequence. -/
theorem C1_clamped_fields_in_range_witness :
    (runPump 1 initPumpState (([⟨0.1, 1, 0.02⟩] : List PumpDraws).take 1)).InRange ∧
    (runBed initBedState (([⟨0.1, 1, 2, 0.5, 0.5, 80⟩] : List BedDraws).take 1)).InRange ∧
    (runVitals initVitalsState (([⟨1, 1, 1, 0.5, 0, 0.1⟩] : List VitalsDraws).take 1)).InRange :=
  ⟨C1_clamped_fields_in_range.1 1 initPumpState [⟨0.1, 1, 0.02⟩]
      (by norm_num [initPumpState, PumpState.InRange])
      (by norm_num [PumpDraws.Valid]) 1 (by decide),
   C1_clamped_fields_in_range.2.1 initBedState [⟨0.1, 1, 2, 0.5, 0.5, 80⟩]
      (by norm_num [initBedState, BedState.InRange])
      (by norm_num [BedDraws.Valid]) 1 (by decide),
   C1_clamped_fields_in_range.2.2 initVitalsState [⟨1, 1, 1, 0.5, 0, 0.1⟩]
      (by norm_num [initVitalsState, VitalsState.InRange])
      (by norm_num [VitalsDraws.Valid]) 1 (by decide)⟩

lemma runPump_battery_nonneg (iv : ℚ) (ds : List PumpDraws) : ∀ (s : PumpState),
    0 ≤ s.battery_level → 0 ≤ (runPump iv s ds).battery_level := by
  induction ds with
  | nil => intro s hs; exact hs
  | cons d ds ih => intro s _; exact ih _ (le_max_left _ _)

/-- C7: for the infusion pump, for every initial battery level in [0,100]
and every sequence of valid random draws, the battery level after each tick
is less than or equal to the battery level before that tick. -/
theorem C7_battery_monotone_nonincreasing :
    ∀ (iv : ℚ) (s : PumpState) (ds : List PumpDraws),
      0 ≤ s.battery_level → s.battery_level ≤ 100 →
      (∀ d ∈ ds, d.Valid) → ∀ i, i < ds.length →
      (runPump iv s (ds.take (i + 1))).battery_level ≤
        (runPump iv s (ds.take i)).battery_level := by
  intro iv s ds hb0 _ hd i hi
  have htake : ds.take (i + 1) = ds.take i ++ [ds[i]] := by
    rw [List.take_succ, List.getElem?_eq_getElem hi]
    rfl
  rw [htake]
  unfold runPump
  rw [List.foldl_append]
  have hmono : 0 ≤ (runPump iv s (ds.take i)).battery_level :=
    runPump_battery_nonneg iv (ds.take i) s hb0
  obtain ⟨_, _, _, _, hdb, _⟩ := hd ds[i] (List.getElem_mem hi)
  exact max_le hmono (by linarith)

/-- Witness for C7 at the initial pump state and a one-tick draw sequence. -/
theorem C7_battery_monotone_nonincreasing_witness :
    (runPump 1 initPumpState (([⟨0, 0, 0.02⟩] : List PumpDraws).take (0 + 1))).battery_level ≤
      (runPump 1 initPumpState (([⟨0, 0, 0.02⟩] : List PumpDraws).take 0)).battery_level :=
  C7_battery_monotone_nonincreasing 1 initPumpState [⟨0, 0, 0.02⟩]
    (by norm_num [initPumpState]) (by norm_num [initPumpState])
    (by norm_num [PumpDraws.Valid]) 0 (by decide)

/-- C8: on every tick where the bed is unoccupied and the 5%-probability
occupancy draw fails, the whole bed state (weight included) is unchanged;
when the draw succeeds, occupancy becomes true and weight is set to the
fresh draw, which lies in [60,120] for valid draws. -/
theorem C8_unoccupied_bed_frame :
    ∀ (s : BedState) (d : BedDraws), s.occupancy = false →
      (¬ d.rOccupy < 0.05 → updateBedState s d = s) ∧
      (d.rOccupy < 0.05 →
        updateBedState s d = { s with occupancy := true, weight := d.newWeight } ∧
        (d.Valid → 60 ≤ d.newWeight ∧ d.newWeight ≤ 120)) := by
  intro s d hocc
  constructor
  · intro hno
    unfold updateBedState
    rw [hocc]
    simp [hno]
  · intro hyes
    constructor
    · unfold updateBedState
      rw [hocc]
      simp [hyes]
    · intro hv
      obtain ⟨_, _, _, _, _, _, _, _, _, _, hnw0, hnw1⟩ := hv
      exact ⟨hnw0, hnw1⟩

/-- Witness for C8: an unoccupied bed and a failed occupancy draw leave the
state untouched. -/
theorem C8_unoccupied_bed_frame_witness :
    updateBedState { initBedState with occupancy := false } ⟨0, 0, 0, 0.5, 0.5, 80⟩ =
      { initBedState with occupancy := false } :=
  (C8_unoccupied_bed_frame { initBedState with occupancy := false }
    ⟨0, 0, 0, 0.5, 0.5, 80⟩ rfl).1 (by norm_num)

/-- C9: runner lifecycle operations are idempotent: stop on a non-running
runner is a no-op leaving the state unchanged, and start on a running runner
returns without spawning a new thread. -/
theorem C9_lifecycle_idempotent :
    ∀ (s : RunnerState) (newThread : Nat),
      (s.running = false → stopRunner s = s) ∧
      (s.running = true → startRunner s newThread = (s, false)) := by
  intro s t
  constructor
  · intro h
    unfold stopRunner
    cases s
    simp_all
  · intro h
    unfold startRunner
    simp [h]

/-- Witness for C9: stop on the never-started runner state, and start on a
running runner state. -/
theorem C9_lifecycle_idempotent_witness :
    stopRunner initRunnerState = initRunnerState ∧
    startRunner { running := true, thread := some 1 } 2 =
      ({ running := true, thread := some 1 }, false) :=
  ⟨(C9_lifecycle_idempotent initRunnerState 0).1 rfl,
   (C9_lifecycle_idempotent { running := true, thread := some 1 } 2).2 rfl⟩

lemma historyAfter_eq_drop {α : Type} (records : List α) :
    historyAfter records = records.drop (records.length - 100) := by
  induction records using List.reverseRecOn with
  | nil => rfl
  | append_singleton l a ih =>
      have step : historyAfter (l ++ [a]) = sendDataHistory (historyAfter l) a := by
        unfold historyAfter
        rw [List.foldl_append, List.foldl_cons, List.foldl_nil]
      rw [step, ih]
      simp only [sendDataHistory]
      have hcat : l.drop (l.length - 100) ++ [a] = (l ++ [a]).drop (l.length - 100) :=
        (List.drop_append_of_le_length (Nat.sub_le _ _)).symm
      rw [hcat]
      have hlen : ((l ++ [a]).drop (l.length - 100)).length
          = l.length + 1 - (l.length - 100) := by
        rw [List.length_drop, List.length_append, List.length_singleton]
      by_cases h : 100 ≤ l.length
      · have hc : ((l ++ [a]).drop (l.length - 100)).length > 100 := by
          rw [hlen]; omega
        rw [if_pos hc, List.tail_drop]
        congr 1
        rw [List.length_append, List.length_singleton]
        omega
      · have hc : ¬ ((l ++ [a]).drop (l.length - 100)).length > 100 := by
          rw [hlen]; omega
        rw [if_neg hc]
        have h0 : l.length - 100 = 0 := by omega
        have h1 : (l ++ [a]).length - 100 = 0 := by
          rw [List.length_append, List.length_singleton]; omega
        rw [h0, h1]

/-- C2: after N records are delivered through send_data, the history buffer
holds all N records in emission order when N is at most 100, and exactly the
100 most recent records in emission order (oldest evicted first) when N
exceeds 100. -/
theorem C2_history_buffer_fifo {α : Type} (records : List α) :
    (records.length ≤ 100 → historyAfter records = records) ∧
    (records.length > 100 →
      (historyAfter records).length = 100 ∧
      historyAfter records = records.drop (records.length - 100)) := by
  constructor
  · intro h
    rw [historyAfter_eq_drop]
    have h0 : records.length - 100 = 0 := by omega
    rw [h0, List.drop_zero]
  · intro h
    refine ⟨?_, historyAfter_eq_drop records⟩
    rw [historyAfter_eq_drop, List.length_drop]
    omega

/-- Witness for C2 at a concrete 101-record sequence. -/
theorem C2_history_buffer_fifo_witness :
    (historyAfter (List.range 101)).length = 100 ∧
    historyAfter (List.range 101) = (List.range 101).drop ((List.range 101).length - 100) :=
  (C2_history_buffer_fifo (List.range 101)).2 (by norm_num [List.length_range])

/-- C3: with batch_size 3, records R1..R7 arriving with no dequeue timeout
in between and one trailing idle timeout produce exactly the sends
[R1,R2,R3], [R4,R5,R6] (full batches) and [R7] (partial flush): 7 records
in total, none duplicated, enqueue order preserved within each batch. -/
theorem C3_batching_dispatcher {α : Type} (r1 r2 r3 r4 r5 r6 r7 : α) :
    processBatches 3 [some r1, some r2, some r3, some r4, some r5, some r6, some r7, none] []
      = [[r1, r2, r3], [r4, r5, r6], [r7]] ∧
    ([[r1, r2, r3], [r4, r5, r6], [r7]] : List (List α)).flatten
      = [r1, r2, r3, r4, r5, r6, r7] := by
  constructor
  · rfl
  · rfl

/-- C4: a non-empty batch of exactly one record is posted bare to the
singular endpoint with timeout 5; a batch of two or more records is posted
as a data-wrapped collection to the batch endpoint with timeout 10; a
response status other than 200 or 201 is a dropped failure. -/
theorem C4_send_batch_payloads {α : Type} (api_url : String) (batch : List α)
    (hne : batch ≠ []) :
    (batch.length = 1 → ∃ r, batch = [r] ∧
      sendBatchPost api_url batch =
        { endpoint := api_url ++ "/devices/data", payload := .single r, timeout := 5 }) ∧
    (2 ≤ batch.length →
      sendBatchPost api_url batch =
        { endpoint := api_url ++ "/devices/data/batch",
          payload := .collection batch, timeout := 10 }) ∧
    (∀ status_code, handleStatus status_code = .success ↔
      status_code = 200 ∨ status_code = 201) := by
  refine ⟨?_, ?_, ?_⟩
  · intro hlen
    match batch with
    | [r] => exact ⟨r, rfl, rfl⟩
  · intro hlen
    match batch, hlen with
    | r :: r' :: rest, _ => rfl
  · intro status_code
    unfold handleStatus
    split <;> simp_all

/-- Witness for C4 on a singleton batch and a two-record batch. -/
theorem C4_send_batch_payloads_witness :
    (∃ r, [(0 : ℕ)] = [r] ∧ sendBatchPost "u" [(0 : ℕ)] =
      { endpoint := "u" ++ "/devices/data", payload := .single r, timeout := 5 }) ∧
    sendBatchPost "u" [(0 : ℕ), 1] =
      { endpoint := "u" ++ "/devices/data/batch",
        payload := .collection [0, 1], timeout := 10 } ∧
    (handleStatus 404 = .success ↔ (404 = 200 ∨ 404 = 201)) :=
  ⟨(C4_send_batch_payloads "u" [0] (by decide)).1 rfl,
   (C4_send_batch_payloads "u" [(0 : ℕ), 1] (by decide)).2.1 (by decide),
   (C4_send_batch_payloads "u" [(0 : ℕ), 1] (by decide)).2.2 404⟩

/-- C5: write_to_all attempts write exactly once on every enabled sink in
registration order and skips disabled sinks; each attempt is recorded
independently of every other attempt, so a sink whose write raises never
prevents delivery to the sinks after it. -/
theorem C5_write_to_all_isolation {α : Type} (sinks : List (SinkEntry α)) (data : α) :
    writeToAll sinks data =
      (sinks.filter fun s => s.enabled).map fun s => (s.name, s.writeFn data) := by
  induction sinks with
  | nil => rfl
  | cons s rest ih =>
      unfold writeToAll
      by_cases h : s.enabled
      · rw [if_pos h, List.filter_cons_of_pos h, List.map_cons, ih]
      · rw [if_neg h, List.filter_cons_of_neg (by simp [h]), ih]

/-- C10: a disabled sink's write is a no-op for every variant: no console
output, no file append, no database insert, nothing enqueued to the API
batch queue — independently of the registry's own enabled check. -/
theorem C10_disabled_write_noop :
    ∀ (α : Type) (format_type file_format : String) (data : List (String × Val))
      (q : List α) (r : α),
      consoleWrite false format_type data = .ok [] ∧
      fileWrite false file_format data = .ok [] ∧
      databaseWrite false data = .ok [] ∧
      apiWrite false q r = q := by
  intro α format_type file_format data q r
  exact ⟨rfl, rfl, rfl, rfl⟩

/-- C6 counterexample: the database sink write on an infusion-pump record
missing flow_rate raises KeyError (and commits nothing) instead of
substituting an unavailable placeholder, refuting the claim for the
database sink variant. -/
theorem C6_counterexample_database_raises :
    databaseWrite true pumpRecordNoFlowRate = .error "KeyError: flow_rate" := rfl

/-- C6 amended: for any infusion-pump record with the base fields present
but flow_rate absent, the console sink (detailed format) substitutes the
N/A placeholder and succeeds, and the file and API sink writes do not fail
either; the database sink write, however, raises KeyError on the missing
device-type-specific field. -/
theorem C6_missing_field_defensiveness :
    ∀ (data : List (String × Val)) (vdi vloc vts vsid : Val),
      getField data "device_id" = some vdi →
      getField data "location" = some vloc →
      getField data "timestamp" = some vts →
      getField data "session_id" = some vsid →
      getField data "device_type" = some (.str "infusion_pump") →
      getField data "flow_rate" = none →
      consoleWrite true "detailed" data =
        .ok [vts, .str "infusion_pump", vdi, vloc, .str "N/A",
             getDefault data "pressure" (.str "N/A")] ∧
      databaseWrite true data = .error "KeyError: flow_rate" ∧
      fileWrite true "json" data =
        .ok [{ filename := "infusion_pump_data.jsonl", payload := .dict data }] ∧
      (∀ (q : List (List (String × Val))), apiWrite true q data = q ++ [data]) := by
  intro data vdi vloc vts vsid hdi hloc hts hsid hdt hfr
  refine ⟨?_, ?_, ?_, fun q => rfl⟩
  · simp only [consoleWrite, getItem, getDefault, hdt, hdi, hloc, hts, hfr]
    rfl
  · simp only [databaseWrite, getItem, hdt, hdi, hloc, hts, hsid, hfr]
    rfl
  · simp only [fileWrite, getItem, hdt]
    rfl

/-- Witness for the amended C6 at the concrete pump record missing
flow_rate. -/
theorem C6_missing_field_defensiveness_witness :
    consoleWrite true "detailed" pumpRecordNoFlowRate =
      .ok [.str "t0", .str "infusion_pump", .str "pump_001", .str "Room_101",
           .str "N/A", getDefault pumpRecordNoFlowRate "pressure" (.str "N/A")] ∧
    databaseWrite true pumpRecordNoFlowRate = .error "KeyError: flow_rate" ∧
    fileWrite true "json" pumpRecordNoFlowRate =
      .ok [{ filename := "infusion_pump_data.jsonl",
             payload := .dict pumpRecordNoFlowRate }] ∧
    apiWrite true ([] : List (List (String × Val))) pumpRecordNoFlowRate =
      [] ++ [pumpRecordNoFlowRate] := by
  have h := C6_missing_field_defensiveness pumpRecordNoFlowRate (.str "pump_001")
    (.str "Room_101") (.str "t0") (.str "abc123") rfl rfl rfl rfl rfl rfl
  exact ⟨h.1, h.2.1, h.2.2.1, h.2.2.2 []⟩

end DeviceBridge
